import Mathlib

/-!
Shallow embedding of the Deel home-task HTTP API (`src/app.js`).

Profiles, contracts and jobs live in an in-memory database value; the domain
operation behind each endpoint is a pure function on that state. Balances,
prices and summed amounts are integers; payment dates and date-range query
parameters are natural numbers (order-isomorphic to the ISO timestamp strings
the source compares). `Option` models missing rows and missing query
parameters; a dedicated `crash` constructor models the places where the
JavaScript source would throw (reading a field of `undefined`/`null`).
-/

/-- Profile row. `type` is "client" or "contractor"; `fullName` is the
profile's full name attribute; `profession` is meaningful for contractors. -/
structure Profile where
  id : Nat
  type : String
  fullName : String
  profession : String
  balance : Int
deriving DecidableEq

/-- Contract row linking one client profile and one contractor profile. -/
structure Contract where
  id : Nat
  ClientId : Nat
  ContractorId : Nat
  status : String
deriving DecidableEq

/-- Job row; `paymentDate = some t` once the job was paid at time `t`. -/
structure Job where
  id : Nat
  ContractId : Nat
  price : Int
  paid : Bool
  paymentDate : Option Nat
deriving DecidableEq

/-- The persisted state: rows in storage order. -/
structure DB where
  profiles : List Profile
  contracts : List Contract
  jobs : List Job
deriving DecidableEq

/-- Primary-key lookup of a profile (`Profile.findOne` by id / association fetch). -/
def findProfile (db : DB) (i : Nat) : Option Profile :=
  db.profiles.find? (fun p => p.id == i)

/-- Primary-key lookup of a contract (`job.getContract()` follows `ContractId`). -/
def findContract (db : DB) (i : Nat) : Option Contract :=
  db.contracts.find? (fun c => c.id == i)

/-- Primary-key lookup of a job (`Job.findOne({where: {id: job_id}})`). -/
def findJob (db : DB) (i : Nat) : Option Job :=
  db.jobs.find? (fun j => j.id == i)

/-- Embeds `getBelongsToKey`: the source picks the foreign-key column name
(`ClientId` for clients, `ContractorId` otherwise); here we read the selected
column's value off the contract. -/
def getBelongsToKey (p : Profile) (c : Contract) : Nat :=
  if p.type = "client" then c.ClientId else c.ContractorId

/-- GET /contracts/:id — `Contract.findOne({where: {id, [belongToKey]: profile.id}})`;
`none` models the 404 reply. -/
def contractById (db : DB) (p : Profile) (i : Nat) : Option Contract :=
  db.contracts.find? (fun c => c.id == i && getBelongsToKey p c == p.id)

/-- GET /jobs/unpaid — collect the caller's in-progress contract ids, then the
jobs whose `ContractId` is in that set and whose `paid` is not true. -/
def jobsUnpaid (db : DB) (p : Profile) : List Job :=
  let contractIds := (db.contracts.filter
    (fun c => getBelongsToKey p c == p.id && c.status == "in_progress")).map
      (fun c => c.id)
  db.jobs.filter (fun j => contractIds.contains j.ContractId && !j.paid)

/-- Outcome of POST /jobs/:job_id/pay: the JSON success and failure bodies, and
`crash` for the unguarded `jobToPay.paid` read on a missing job (and the
analogous dangling-association reads). -/
inductive PayOutcome where
  | success (message : String)
  | failure (error : String)
  | crash
deriving DecidableEq

/-- Persist an in-memory profile object (`profile.save()`): replace the rows
carrying its id. -/
def updateProfile (db : DB) (p : Profile) : DB :=
  { db with profiles := db.profiles.map (fun q => if q.id = p.id then p else q) }

/-- Persist an in-memory job object (`job.save()`). -/
def updateJob (db : DB) (j : Job) : DB :=
  { db with jobs := db.jobs.map (fun x => if x.id = j.id then j else x) }

/-- POST /jobs/:job_id/pay. Guards in source order: caller type, job lookup
(unguarded: `crash` when missing), already-paid flag, ownership
(`profile.hasClient(jobContract)`, i.e. the contract's `ClientId` is the
caller), balance sufficiency; then the three sequential writes. The contractor
object is loaded (with the contract, `include: 'Contractor'`) before the payer
debit, so a later credit uses that possibly stale snapshot, and a dangling
`ContractorId` crashes only after the debit was persisted. -/
def payJob (db : DB) (profile : Profile) (jobId : Nat) (now : Nat) :
    PayOutcome × DB :=
  if profile.type ≠ "client" then (.failure "Only clients can pay for jobs", db)
  else
    match findJob db jobId with
    | none => (.crash, db)
    | some jobToPay =>
      if jobToPay.paid then (.failure "This job was already paid", db)
      else
        match findContract db jobToPay.ContractId with
        | none => (.crash, db)
        | some jobContract =>
          if jobContract.ClientId ≠ profile.id then
            (.failure "You are not the client of this job", db)
          else if profile.balance < jobToPay.price then
            (.failure "Your balance is not enought to pay for this job", db)
          else
            let contractorOpt := findProfile db jobContract.ContractorId
            let db1 := updateProfile db
              { profile with balance := profile.balance - jobToPay.price }
            match contractorOpt with
            | none => (.crash, db1)
            | some contractor =>
              let db2 := updateProfile db1
                { contractor with balance := contractor.balance + jobToPay.price }
              let db3 := updateJob db2
                { jobToPay with paid := true, paymentDate := some now }
              (.success "Job paid successfully", db3)

/-- Embeds the JS object-accumulator pattern of the reports: add `v` to the
entry at key `k`, first inserting the key (at the end, first-seen order) if it
is absent. -/
def addEntry {κ : Type} [DecidableEq κ] (l : List (κ × Int)) (k : κ) (v : Int) :
    List (κ × Int) :=
  if l.any (fun x => x.1 == k) then
    l.map (fun x => if x.1 = k then (x.1, x.2 + v) else x)
  else l ++ [(k, v)]

/-- Read an accumulator entry (`summary[key]`); every reachable read in the
source hits a present key, so the default is never observable. -/
def lookupD {κ : Type} [DecidableEq κ] (l : List (κ × Int)) (k : κ) : Int :=
  match l.find? (fun x => x.1 == k) with
  | some x => x.2
  | none => 0

/-- Jobs whose `paymentDate` lies in the inclusive range (`Op.between`); rows
with no payment date never match. -/
def jobsInRange (db : DB) (s e : Nat) : List Job :=
  db.jobs.filter (fun j =>
    match j.paymentDate with
    | some d => s ≤ d && d ≤ e
    | none => false)

/-- Contracts whose id occurs among the given jobs' `ContractId`s
(`[...new Set(jobsInRange.map(job => job.ContractId))]` fed to an `IN` query,
results in storage order). -/
def contractsInRange (db : DB) (jobs : List Job) : List Contract :=
  let contractIds := (jobs.map (fun j => j.ContractId)).dedup
  db.contracts.filter (fun c => contractIds.contains c.id)

/-- Summed `price` per `ContractId` over the given jobs. -/
def contractPaidSummary (jobs : List Job) : List (Nat × Int) :=
  jobs.foldl (fun s j => addEntry s j.ContractId j.price) []

/-- Resolve the `include: 'Contractor'` association on each contract; `none`
models the later crash on a dangling `ContractorId`. -/
def withContractor (db : DB) (cs : List Contract) :
    Option (List (Contract × Profile)) :=
  cs.mapM (fun c => (findProfile db c.ContractorId).map (fun q => (c, q)))

/-- Resolve the `include: 'Client'` association on each contract. -/
def withClient (db : DB) (cs : List Contract) :
    Option (List (Contract × Profile)) :=
  cs.mapM (fun c => (findProfile db c.ClientId).map (fun q => (c, q)))

/-- Re-group the per-contract sums by the contractor's profession. -/
def professionPaidSummary (pairs : List (Contract × Profile))
    (cps : List (Nat × Int)) : List (String × Int) :=
  pairs.foldl (fun s cp => addEntry s cp.2.profession (lookupD cps cp.1.id)) []

/-- Descending-amount comparison used by the complete report variant
(`(obj1, obj2) => obj2[1] - obj1[1]`). -/
def amountDesc (a b : String × Int) : Prop := b.2 ≤ a.2

/-- Ascending-amount comparison used by the earlier report variant
(`(obj1, obj2) => obj1[1] - obj2[1]`). -/
def amountAsc (a b : String × Int) : Prop := a.2 ≤ b.2

instance : DecidableRel amountDesc :=
  fun a b => inferInstanceAs (Decidable (b.2 ≤ a.2))

instance : DecidableRel amountAsc :=
  fun a b => inferInstanceAs (Decidable (a.2 ≤ b.2))

instance : IsTotal (String × Int) amountDesc := ⟨fun a b => le_total b.2 a.2⟩

instance : IsTrans (String × Int) amountDesc :=
  ⟨fun _ _ _ h1 h2 => le_trans h2 h1⟩

instance : IsTotal (String × Int) amountAsc := ⟨fun a b => le_total a.2 b.2⟩

instance : IsTrans (String × Int) amountAsc :=
  ⟨fun _ _ _ h1 h2 => le_trans h1 h2⟩

/-- Outcome of GET /admin/best-profession: 400, 404, the JSON payload, or a
thrown TypeError (`crash`). -/
inductive ProfessionResult where
  | badRequest (error : String)
  | notFound (error : String)
  | ok (profession : String) (amountPaid : Int)
  | crash
deriving DecidableEq

/-- GET /admin/best-profession, complete variant (the one exported by the
final `app.js`): 400 on a missing query parameter, 404 on an empty range,
otherwise the head of the stable descending sort of the per-profession sums.
JS `Array.prototype.sort` is stable, as is `List.insertionSort`. -/
def bestProfession (db : DB) (startQ endQ : Option Nat) : ProfessionResult :=
  match startQ, endQ with
  | some s, some e =>
    let jobs := jobsInRange db s e
    if jobs.isEmpty then .notFound "No job found for specified range"
    else
      match withContractor db (contractsInRange db jobs) with
      | none => .crash
      | some pairs =>
        let summary := professionPaidSummary pairs (contractPaidSummary jobs)
        match summary.insertionSort amountDesc with
        | [] => .crash
        | best :: _ => .ok best.1 best.2
  | _, _ => .badRequest "Missing start or end date query parameters"

/-- GET /admin/best-profession, earlier variant: same pipeline but no
empty-range guard, an ascending sort, and `sortedEntries[sortedEntries.length
- 1]` — which is `undefined` on an empty ranking, so the subsequent indexing
throws (`crash`). -/
def bestProfessionV1 (db : DB) (startQ endQ : Option Nat) : ProfessionResult :=
  match startQ, endQ with
  | some s, some e =>
    let jobs := jobsInRange db s e
    match withContractor db (contractsInRange db jobs) with
    | none => .crash
    | some pairs =>
      let summary := professionPaidSummary pairs (contractPaidSummary jobs)
      match (summary.insertionSort amountAsc).getLast? with
      | none => .crash
      | some best => .ok best.1 best.2
  | _, _ => .badRequest "Missing start or end date query parameters"

/-- Entry of the best-clients response: `{id, fullname, paid}`. -/
structure ClientEntry where
  id : Nat
  fullname : String
  paid : Int
deriving DecidableEq

/-- Outcome of GET /admin/best-clients. -/
inductive ClientsResult where
  | badRequest (error : String)
  | notFound (error : String)
  | ok (entries : List ClientEntry)
  | crash
deriving DecidableEq

/-- Modelled from the spec: `Profile.getFullName` lives in the model module,
which is not among the provided sources; per the spec a profile carries a full
name, which this accessor returns. -/
def getFullName (p : Profile) : String := p.fullName

/-- Accumulator step of `clientsPaidSummary`: the source inserts
`{id, fullname, paid: 0}` on first sight of a client id and then adds the
contract's summed price to `paid`. -/
def addClientEntry (l : List (Nat × ClientEntry)) (k : Nat) (name : String)
    (v : Int) : List (Nat × ClientEntry) :=
  if l.any (fun x => x.1 == k) then
    l.map (fun x => if x.1 = k then (x.1, { x.2 with paid := x.2.paid + v }) else x)
  else l ++ [(k, { id := k, fullname := name, paid := v })]

/-- Re-group the per-contract sums by client, carrying id and full name. -/
def clientsPaidSummary (pairs : List (Contract × Profile))
    (cps : List (Nat × Int)) : List (Nat × ClientEntry) :=
  pairs.foldl
    (fun s cp => addClientEntry s cp.2.id (getFullName cp.2) (lookupD cps cp.1.id)) []

/-- Ascending-key comparison: `Object.entries` on a JS object with
integer-like keys yields entries in ascending numeric key order. -/
def keyAsc (a b : Nat × ClientEntry) : Prop := a.1 ≤ b.1

/-- Descending-paid comparison of the best-clients sort
(`(obj1, obj2) => obj2[1].paid - obj1[1].paid`). -/
def paidDesc (a b : Nat × ClientEntry) : Prop := b.2.paid ≤ a.2.paid

/-- Descending-paid comparison on the bare entries. -/
def entryPaidDesc (a b : ClientEntry) : Prop := b.paid ≤ a.paid

instance : DecidableRel keyAsc :=
  fun a b => inferInstanceAs (Decidable (a.1 ≤ b.1))

instance : DecidableRel paidDesc :=
  fun a b => inferInstanceAs (Decidable (b.2.paid ≤ a.2.paid))

instance : IsTotal (Nat × ClientEntry) keyAsc := ⟨fun a b => le_total a.1 b.1⟩

instance : IsTrans (Nat × ClientEntry) keyAsc :=
  ⟨fun _ _ _ h1 h2 => le_trans h1 h2⟩

instance : IsTotal (Nat × ClientEntry) paidDesc :=
  ⟨fun a b => le_total b.2.paid a.2.paid⟩

instance : IsTrans (Nat × ClientEntry) paidDesc :=
  ⟨fun _ _ _ h1 h2 => le_trans h2 h1⟩

/-- GET /admin/best-clients: 400 on a missing query parameter, 404 on an
empty range, otherwise the first `limit` (default 2) entries of the stable
descending-paid sort of the per-client summary, read off in `Object.entries`
order (ascending client id, since the keys are integer-like). -/
def bestClients (db : DB) (startQ endQ limitQ : Option Nat) : ClientsResult :=
  match startQ, endQ with
  | some s, some e =>
    let limit := limitQ.getD 2
    let jobs := jobsInRange db s e
    if jobs.isEmpty then .notFound "No job found for specified range"
    else
      match withClient db (contractsInRange db jobs) with
      | none => .crash
      | some pairs =>
        let summary := clientsPaidSummary pairs (contractPaidSummary jobs)
        let entries := summary.insertionSort keyAsc
        let sorted := entries.insertionSort paidDesc
        .ok ((sorted.take limit).map (fun x => x.2))
  | _, _ => .badRequest "Missing start or end date query parameters"

/-- Per-profession summary computed by both report variants on a given range
(empty when an association is dangling and the variants crash instead). -/
def professionSummaryOf (db : DB) (s e : Nat) : List (String × Int) :=
  match withContractor db (contractsInRange db (jobsInRange db s e)) with
  | none => []
  | some pairs =>
    professionPaidSummary pairs (contractPaidSummary (jobsInRange db s e))

/-- Per-client summary computed by the best-clients report on a given range. -/
def clientsSummaryOf (db : DB) (s e : Nat) : List (Nat × ClientEntry) :=
  match withClient db (contractsInRange db (jobsInRange db s e)) with
  | none => []
  | some pairs =>
    clientsPaidSummary pairs (contractPaidSummary (jobsInRange db s e))

/-!
Helper lemmas about `find?` over a row list after a keyed in-place replace, as
performed by `updateProfile` and `updateJob`.
-/

theorem find?_cons_pos {α : Type} (p : α → Bool) (x : α) (l : List α)
    (h : p x = true) : (x :: l).find? p = some x := by
  simp [List.find?, h]

theorem find?_cons_neg {α : Type} (p : α → Bool) (x : α) (l : List α)
    (h : p x = false) : (x :: l).find? p = l.find? p := by
  simp [List.find?, h]

theorem find?_replace_self {α : Type} (f : α → Nat) (q : α) :
    ∀ l : List α, (l.find? (fun x => f x == f q)).isSome = true →
      (l.map (fun x => if f x = f q then q else x)).find?
        (fun x => f x == f q) = some q := by
  intro l
  induction l with
  | nil => intro h; simp at h
  | cons x l ih =>
    intro h
    by_cases hx : f x = f q
    · simp [hx, List.find?]
    · have hxb : (f x == f q) = false := by simp [hx]
      rw [find?_cons_neg (fun y => f y == f q) x l hxb] at h
      simp only [List.map_cons, if_neg hx]
      rw [find?_cons_neg (fun y => f y == f q) x _ hxb]
      exact ih h

theorem find?_replace_ne {α : Type} (f : α → Nat) (q : α) (i : Nat)
    (hne : i ≠ f q) :
    ∀ l : List α,
      (l.map (fun x => if f x = f q then q else x)).find? (fun x => f x == i) =
        l.find? (fun x => f x == i) := by
  intro l
  induction l with
  | nil => rfl
  | cons x l ih =>
    simp only [List.map_cons]
    by_cases hx : f x = f q
    · have h1 : (f q == i) = false := by
        simp only [beq_eq_false_iff_ne, ne_eq]
        exact fun h => hne h.symm
      have h2 : (f x == i) = false := by rw [hx]; exact h1
      rw [if_pos hx, find?_cons_neg (fun y => f y == i) q _ h1,
        find?_cons_neg (fun y => f y == i) x l h2]
      exact ih
    · rw [if_neg hx]
      cases hb : (f x == i) with
      | false =>
        rw [find?_cons_neg (fun y => f y == i) x _ hb,
          find?_cons_neg (fun y => f y == i) x l hb]
        exact ih
      | true =>
        rw [find?_cons_pos (fun y => f y == i) x _ hb,
          find?_cons_pos (fun y => f y == i) x l hb]

theorem findProfile_updateProfile_self (db : DB) (q : Profile)
    (h : (findProfile db q.id).isSome = true) :
    findProfile (updateProfile db q) q.id = some q :=
  find?_replace_self (fun x : Profile => x.id) q db.profiles h

theorem findProfile_updateProfile_ne (db : DB) (q : Profile) (i : Nat)
    (hne : i ≠ q.id) :
    findProfile (updateProfile db q) i = findProfile db i :=
  find?_replace_ne (fun x : Profile => x.id) q i hne db.profiles

theorem findJob_updateJob_self (db : DB) (j : Job)
    (h : (findJob db j.id).isSome = true) :
    findJob (updateJob db j) j.id = some j :=
  find?_replace_self (fun x : Job => x.id) j db.jobs h

theorem findProfile_updateJob (db : DB) (j : Job) (i : Nat) :
    findProfile (updateJob db j) i = findProfile db i := rfl

/-- C2: paying a job whose paid flag is already true, by a client caller on an
existing job, fails with the "already paid" structured error and leaves the
database — balances and the job record included — completely unchanged. -/
theorem pay_already_paid_no_mutation (db : DB) (p : Profile) (job : Job)
    (jobId now : Nat) (hp : p.type = "client")
    (hj : findJob db jobId = some job) (hpaid : job.paid = true) :
    payJob db p jobId now = (PayOutcome.failure "This job was already paid", db) := by
  have hty : ¬ p.type ≠ "client" := fun h => h hp
  simp only [payJob, if_neg hty, hj, hpaid, if_true]

/-- C3: a client paying an existing unpaid job of their own contract with a
balance strictly below the job's price gets the insufficient-balance failure
and the database is completely unchanged. -/
theorem pay_insufficient_balance_no_mutation (db : DB) (p : Profile) (job : Job)
    (c : Contract) (jobId now : Nat) (hp : p.type = "client")
    (hj : findJob db jobId = some job) (hunpaid : job.paid = false)
    (hc : findContract db job.ContractId = some c) (hcl : c.ClientId = p.id)
    (hlt : p.balance < job.price) :
    payJob db p jobId now =
      (PayOutcome.failure "Your balance is not enought to pay for this job", db) := by
  have hty : ¬ p.type ≠ "client" := fun h => h hp
  have hcl' : ¬ c.ClientId ≠ p.id := fun h => h hcl
  simp only [payJob, if_neg hty, hj, hunpaid, Bool.false_eq_true, if_false, hc,
    if_neg hcl', if_pos hlt]

/-- C9: paying a job id with no matching Job record reaches the unguarded
`jobToPay.paid` read, so for a client caller the operation crashes instead of
producing any structured failure; no mutation happens. -/
theorem pay_missing_job_crashes (db : DB) (p : Profile) (jobId now : Nat)
    (hp : p.type = "client") (hj : findJob db jobId = none) :
    payJob db p jobId now = (PayOutcome.crash, db) := by
  have hty : ¬ p.type ≠ "client" := fun h => h hp
  simp only [payJob, if_neg hty, hj]

/-- C1: a payment by a client caller on an existing unpaid job of a contract
whose Client is the caller, with caller balance at least the job's price and a
distinct contractor party, succeeds: the caller's persisted balance drops by
exactly the price, the contractor's rises by exactly the price (the two-party
total is conserved), the job is marked paid with its payment date set, and the
success body is returned. -/
theorem pay_success_transfers (db : DB) (p contractor : Profile) (job : Job)
    (c : Contract) (jobId now : Nat)
    (hp : p.type = "client")
    (hself : findProfile db p.id = some p)
    (hj : findJob db jobId = some job)
    (hunpaid : job.paid = false)
    (hc : findContract db job.ContractId = some c)
    (hcl : c.ClientId = p.id)
    (hk : findProfile db c.ContractorId = some contractor)
    (hne : contractor.id ≠ p.id)
    (hb : job.price ≤ p.balance) :
    (payJob db p jobId now).1 = PayOutcome.success "Job paid successfully" ∧
    findProfile (payJob db p jobId now).2 p.id =
      some { p with balance := p.balance - job.price } ∧
    findProfile (payJob db p jobId now).2 contractor.id =
      some { contractor with balance := contractor.balance + job.price } ∧
    findJob (payJob db p jobId now).2 jobId =
      some { job with paid := true, paymentDate := some now } ∧
    p.balance - job.price + (contractor.balance + job.price) =
      p.balance + contractor.balance := by
  have hty : ¬ p.type ≠ "client" := fun h => h hp
  have hcl' : ¬ c.ClientId ≠ p.id := fun h => h hcl
  have hnl : ¬ p.balance < job.price := not_lt.mpr hb
  have hres : payJob db p jobId now =
      (PayOutcome.success "Job paid successfully",
        updateJob
          (updateProfile
            (updateProfile db { p with balance := p.balance - job.price })
            { contractor with balance := contractor.balance + job.price })
          { job with paid := true, paymentDate := some now }) := by
    simp only [payJob, if_neg hty, hj, hunpaid, Bool.false_eq_true, if_false,
      hc, if_neg hcl', if_neg hnl, hk]
  have hjid : job.id = jobId := by
    have hj' : db.jobs.find? (fun x => x.id == jobId) = some job := hj
    have := List.find?_some hj'
    simpa using this
  have hcid : contractor.id = c.ContractorId := by
    have hk' : db.profiles.find? (fun x => x.id == c.ContractorId) =
        some contractor := hk
    have := List.find?_some hk'
    simpa using this
  refine ⟨by rw [hres], ?_, ?_, ?_, by ring⟩
  · rw [hres]
    show findProfile
      (updateProfile (updateProfile db { p with balance := p.balance - job.price })
        { contractor with balance := contractor.balance + job.price }) p.id = _
    rw [findProfile_updateProfile_ne _
      { contractor with balance := contractor.balance + job.price } p.id
      (Ne.symm hne)]
    exact findProfile_updateProfile_self db
      { p with balance := p.balance - job.price } (by
        show (findProfile db p.id).isSome = true
        rw [hself]; rfl)
  · rw [hres]
    show findProfile
      (updateProfile (updateProfile db { p with balance := p.balance - job.price })
        { contractor with balance := contractor.balance + job.price })
      contractor.id = _
    exact findProfile_updateProfile_self _
      { contractor with balance := contractor.balance + job.price } (by
        show (findProfile
          (updateProfile db { p with balance := p.balance - job.price })
          contractor.id).isSome = true
        rw [findProfile_updateProfile_ne _
          { p with balance := p.balance - job.price } contractor.id hne]
        rw [hcid, hk]; rfl)
  · rw [hres]
    have hsame : findJob
        (updateProfile (updateProfile db { p with balance := p.balance - job.price })
          { contractor with balance := contractor.balance + job.price }) job.id =
        findJob db job.id := rfl
    rw [← hjid]
    exact findJob_updateJob_self _
      { job with paid := true, paymentDate := some now } (by
        show (findJob
          (updateProfile (updateProfile db { p with balance := p.balance - job.price })
            { contractor with balance := contractor.balance + job.price })
          job.id).isSome = true
        rw [hsame, hjid, hj]; rfl)

/-- Concrete client used by the payment witnesses. -/
def exClient : Profile := ⟨1, "client", "Harry Potter", "", 100⟩

/-- Concrete contractor used by the payment witnesses. -/
def exContractor : Profile := ⟨2, "contractor", "John Lenon", "Musician", 50⟩

/-- Concrete low-balance client. -/
def exPoorClient : Profile := ⟨3, "client", "Ash Kethcum", "", 10⟩

/-- Contract between `exClient` and `exContractor`. -/
def exContract : Contract := ⟨10, 1, 2, "in_progress"⟩

/-- Contract between `exPoorClient` and `exContractor`. -/
def exContract2 : Contract := ⟨11, 3, 2, "in_progress"⟩

/-- Unpaid job under `exContract`. -/
def exJob : Job := ⟨100, 10, 30, false, none⟩

/-- Already-paid job under `exContract`. -/
def exPaidJob : Job := ⟨101, 10, 25, true, some 3⟩

/-- Unpaid job under `exContract2`, priced above its client's balance. -/
def exJob2 : Job := ⟨102, 11, 40, false, none⟩

/-- Concrete database for the payment witnesses. -/
def exDb : DB := ⟨[exClient, exContractor, exPoorClient],
  [exContract, exContract2], [exJob, exPaidJob, exJob2]⟩

/-- Witness for C1: the success-path theorem applied to a concrete payment. -/
theorem pay_success_transfers_witness :
    exJob.price ≤ exClient.balance ∧
    (payJob exDb exClient 100 7).1 = PayOutcome.success "Job paid successfully" ∧
    findProfile (payJob exDb exClient 100 7).2 exClient.id =
      some { exClient with balance := exClient.balance - exJob.price } ∧
    findProfile (payJob exDb exClient 100 7).2 exContractor.id =
      some { exContractor with balance := exContractor.balance + exJob.price } ∧
    findJob (payJob exDb exClient 100 7).2 100 =
      some { exJob with paid := true, paymentDate := some 7 } := by
  have h := pay_success_transfers exDb exClient exContractor exJob exContract 100 7
    (by decide) (by decide) (by decide) (by decide) (by decide) (by decide)
    (by decide) (by decide) (by decide)
  exact ⟨by decide, h.1, h.2.1, h.2.2.1, h.2.2.2.1⟩

/-- Witness for C2: paying the already-paid concrete job fails unchanged. -/
theorem pay_already_paid_no_mutation_witness :
    exPaidJob.paid = true ∧
    payJob exDb exClient 101 7 =
      (PayOutcome.failure "This job was already paid", exDb) :=
  ⟨by decide, pay_already_paid_no_mutation exDb exClient exPaidJob 101 7
    (by decide) (by decide) (by decide)⟩

/-- Witness for C3: the under-funded concrete payment fails unchanged. -/
theorem pay_insufficient_balance_no_mutation_witness :
    exPoorClient.balance < exJob2.price ∧
    payJob exDb exPoorClient 102 7 =
      (PayOutcome.failure "Your balance is not enought to pay for this job", exDb) :=
  ⟨by decide, pay_insufficient_balance_no_mutation exDb exPoorClient exJob2
    exContract2 102 7 (by decide) (by decide) (by decide) (by decide) (by decide)
    (by decide)⟩

/-- Witness for C9: paying a nonexistent job id crashes on the concrete data. -/
theorem pay_missing_job_crashes_witness :
    findJob exDb 999 = none ∧
    payJob exDb exClient 999 7 = (PayOutcome.crash, exDb) :=
  ⟨by decide, pay_missing_job_crashes exDb exClient 999 7 (by decide) (by decide)⟩

theorem find?_eq_some_of_mem {α : Type} (f : α → Nat) (pred : α → Bool) (i : Nat)
    (hkey : ∀ x, pred x = true → f x = i) :
    ∀ l : List α, (l.map f).Nodup → ∀ c, c ∈ l → pred c = true →
      l.find? pred = some c := by
  intro l
  induction l with
  | nil => intro _ c hc; exact absurd hc (List.not_mem_nil c)
  | cons x l ih =>
    intro hn c hc hpc
    rw [List.map_cons, List.nodup_cons] at hn
    cases hb : pred x with
    | true =>
      rw [find?_cons_pos pred x l hb]
      rcases List.mem_cons.mp hc with h | hmem
      · rw [h]
      · exfalso
        apply hn.1
        rw [hkey x hb, ← hkey c hpc]
        exact List.mem_map_of_mem f hmem
    | false =>
      rw [find?_cons_neg pred x l hb]
      rcases List.mem_cons.mp hc with h | hmem
      · rw [h] at hpc; simp [hpc] at hb
      · exact ih hn.2 c hmem hpc

/-- C4: with distinct stored contract ids, GET /contracts/:id returns a
contract exactly when it is the stored contract with the requested id whose
caller-type-selected foreign key (`ClientId` for a client, `ContractorId` for
a contractor) equals the caller's id; a contract owned by someone else gives
the same not-found outcome (`none`) as a missing id. -/
theorem contractById_scoping (db : DB) (p : Profile) (i : Nat)
    (hn : (db.contracts.map (fun c => c.id)).Nodup) :
    ∀ c : Contract, contractById db p i = some c ↔
      (c ∈ db.contracts ∧ c.id = i ∧ getBelongsToKey p c = p.id) := by
  intro c
  constructor
  · intro h
    have h' : db.contracts.find?
        (fun c => c.id == i && getBelongsToKey p c == p.id) = some c := h
    have hmem := List.mem_of_find?_eq_some h'
    have hpred := List.find?_some h'
    simp only [Bool.and_eq_true, beq_iff_eq] at hpred
    exact ⟨hmem, hpred.1, hpred.2⟩
  · rintro ⟨hmem, hid, hbel⟩
    exact find?_eq_some_of_mem (fun c => c.id)
      (fun c => c.id == i && getBelongsToKey p c == p.id) i
      (fun x hx => by
        simp only [Bool.and_eq_true, beq_iff_eq] at hx
        exact hx.1)
      db.contracts hn c hmem (by simp [hid, hbel])

/-- Witness for C4: the scoping characterization applied to a concrete
database and caller. -/
theorem contractById_scoping_witness :
    (exDb.contracts.map (fun c => c.id)).Nodup ∧
    (contractById exDb exClient 10 = some exContract ↔
      (exContract ∈ exDb.contracts ∧ exContract.id = 10 ∧
        getBelongsToKey exClient exContract = exClient.id)) :=
  ⟨by decide, contractById_scoping exDb exClient 10 (by decide) exContract⟩

/-- C7: GET /jobs/unpaid returns the empty list whenever the caller has zero
in-progress contracts (the query against the empty id set matches nothing),
and in general a job is returned exactly when it is stored, not paid, and
belongs to an in-progress contract of the caller. -/
theorem jobsUnpaid_characterization (db : DB) (p : Profile) :
    (db.contracts.filter
        (fun c => getBelongsToKey p c == p.id && c.status == "in_progress") = [] →
      jobsUnpaid db p = []) ∧
    ∀ j : Job, j ∈ jobsUnpaid db p ↔
      (j ∈ db.jobs ∧ j.paid = false ∧
        ∃ c ∈ db.contracts, c.id = j.ContractId ∧ getBelongsToKey p c = p.id ∧
          c.status = "in_progress") := by
  constructor
  · intro h
    simp only [jobsUnpaid, h, List.map_nil]
    simp
  · intro j
    simp only [jobsUnpaid, List.mem_filter, Bool.and_eq_true, List.elem_iff,
      List.mem_map, List.mem_filter, beq_iff_eq, Bool.not_eq_eq_eq_not,
      Bool.not_true]
    constructor
    · rintro ⟨hj, ⟨c, ⟨hcmem, hbel, hst⟩, hcid⟩, hpaid⟩
      exact ⟨hj, by simpa using hpaid, c, hcmem, hcid, hbel, hst⟩
    · rintro ⟨hj, hpaid, c, hcmem, hcid, hbel, hst⟩
      exact ⟨hj, ⟨c, ⟨hcmem, hbel, hst⟩, hcid⟩, by simpa using hpaid⟩

/-- Concrete client with no contracts at all. -/
def exIdleClient : Profile := ⟨6, "client", "Luke Skywalker", "", 20⟩

/-- Witness for C7: the characterization applied to a concrete caller with no
in-progress contracts; the empty-contracts implication fires. -/
theorem jobsUnpaid_characterization_witness :
    exDb.contracts.filter
        (fun c => getBelongsToKey exIdleClient c == exIdleClient.id &&
          c.status == "in_progress") = [] ∧
    jobsUnpaid exDb exIdleClient = [] := by
  have h := jobsUnpaid_characterization exDb exIdleClient
  exact ⟨by decide, h.1 (by decide)⟩

theorem mem_of_getLast?_eq_some {α : Type} {l : List α} {x : α}
    (h : l.getLast? = some x) : x ∈ l :=
  List.mem_of_mem_getLast? (Option.mem_def.mpr h)

theorem sorted_head_max {l : List (String × Int)} {best : String × Int}
    {rest : List (String × Int)}
    (h : l.insertionSort amountDesc = best :: rest) :
    best ∈ l ∧ ∀ q ∈ l, q.2 ≤ best.2 := by
  have hperm : (best :: rest).Perm l := by
    rw [← h]; exact List.perm_insertionSort amountDesc l
  have hs : (best :: rest).Sorted amountDesc := by
    rw [← h]; exact List.sorted_insertionSort amountDesc l
  constructor
  · exact hperm.mem_iff.mp (List.mem_cons_self best rest)
  · intro q hq
    rcases List.mem_cons.mp (hperm.mem_iff.mpr hq) with h1 | h2
    · rw [h1]
    · exact List.rel_of_sorted_cons hs q h2

theorem sorted_getLast_max :
    ∀ l : List (String × Int), l.Sorted amountAsc → ∀ x : String × Int,
      l.getLast? = some x → ∀ q ∈ l, q.2 ≤ x.2 := by
  intro l
  induction l with
  | nil => intro _ x hx; cases hx
  | cons a t ih =>
    intro hs x hx q hq
    cases t with
    | nil =>
      have hax : a = x := by simpa using hx
      have hqa : q = a := by simpa using hq
      rw [hqa, hax]
    | cons b t2 =>
      rw [List.getLast?_cons_cons] at hx
      rcases List.mem_cons.mp hq with h1 | h2
      · have hxmem : x ∈ b :: t2 := mem_of_getLast?_eq_some hx
        rw [h1]
        exact List.rel_of_sorted_cons hs x hxmem
      · exact ih hs.of_cons x hx q h2

theorem bp_ok_mem_max (db : DB) (s e : Nat) (prof : String) (amt : Int)
    (h : bestProfession db (some s) (some e) = ProfessionResult.ok prof amt) :
    (prof, amt) ∈ professionSummaryOf db s e ∧
    ∀ q ∈ professionSummaryOf db s e, q.2 ≤ amt := by
  simp only [bestProfession] at h
  split at h
  · simp at h
  · split at h
    · simp at h
    · rename_i pairs hpairs
      split at h
      · simp at h
      · rename_i best rest hsort
        injection h with h1 h2
        have hsum : professionSummaryOf db s e =
            professionPaidSummary pairs
              (contractPaidSummary (jobsInRange db s e)) := by
          simp only [professionSummaryOf, hpairs]
        rw [hsum, ← h1, ← h2]
        exact sorted_head_max hsort

theorem bpV1_ok_mem_max (db : DB) (s e : Nat) (prof : String) (amt : Int)
    (h : bestProfessionV1 db (some s) (some e) = ProfessionResult.ok prof amt) :
    (prof, amt) ∈ professionSummaryOf db s e ∧
    ∀ q ∈ professionSummaryOf db s e, q.2 ≤ amt := by
  simp only [bestProfessionV1] at h
  split at h
  · simp at h
  · rename_i pairs hpairs
    split at h
    · simp at h
    · rename_i best hlast
      injection h with h1 h2
      have hsum : professionSummaryOf db s e =
          professionPaidSummary pairs
            (contractPaidSummary (jobsInRange db s e)) := by
        simp only [professionSummaryOf, hpairs]
      have hs := List.sorted_insertionSort amountAsc
        (professionPaidSummary pairs (contractPaidSummary (jobsInRange db s e)))
      have hperm := List.perm_insertionSort amountAsc
        (professionPaidSummary pairs (contractPaidSummary (jobsInRange db s e)))
      rw [hsum, ← h1, ← h2]
      constructor
      · exact hperm.mem_iff.mp (mem_of_getLast?_eq_some hlast)
      · intro q hq
        exact sorted_getLast_max _ hs best hlast q (hperm.mem_iff.mpr hq)

/-- C5: whenever the complete best-profession report replies with a profession
and amount, that pair is one of the per-profession sums (price summed per
contract, re-grouped by the contractor's profession) and its amount is the
greatest among them. -/
theorem bestProfession_returns_top (db : DB) (s e : Nat) (prof : String)
    (amt : Int)
    (h : bestProfession db (some s) (some e) = ProfessionResult.ok prof amt) :
    (prof, amt) ∈ professionSummaryOf db s e ∧
    ∀ q ∈ professionSummaryOf db s e, q.2 ≤ amt :=
  bp_ok_mem_max db s e prof amt h

/-- C6: whenever the best-clients report replies with entries, they are the
first `limit` (default 2) elements of a descending-by-paid sorted arrangement
of the per-client summary entries. -/
theorem bestClients_top_limit (db : DB) (s e : Nat) (limitQ : Option Nat)
    (l : List ClientEntry)
    (h : bestClients db (some s) (some e) limitQ = ClientsResult.ok l) :
    ∃ sortedAll : List ClientEntry,
      sortedAll.Perm ((clientsSummaryOf db s e).map (fun x => x.2)) ∧
      sortedAll.Sorted entryPaidDesc ∧
      l = sortedAll.take (limitQ.getD 2) := by
  simp only [bestClients] at h
  split at h
  · simp at h
  · split at h
    · simp at h
    · rename_i pairs hpairs
      injection h with h1
      have hsum : clientsSummaryOf db s e =
          clientsPaidSummary pairs (contractPaidSummary (jobsInRange db s e)) := by
        simp only [clientsSummaryOf, hpairs]
      refine ⟨(((clientsPaidSummary pairs
          (contractPaidSummary (jobsInRange db s e))).insertionSort
            keyAsc).insertionSort paidDesc).map (fun x => x.2), ?_, ?_, ?_⟩
      · have hperm := (List.perm_insertionSort paidDesc
          ((clientsPaidSummary pairs
            (contractPaidSummary (jobsInRange db s e))).insertionSort keyAsc)).trans
          (List.perm_insertionSort keyAsc (clientsPaidSummary pairs
            (contractPaidSummary (jobsInRange db s e))))
        rw [hsum]
        exact hperm.map (fun x => x.2)
      · have hs := List.sorted_insertionSort paidDesc
          ((clientsPaidSummary pairs
            (contractPaidSummary (jobsInRange db s e))).insertionSort keyAsc)
        exact List.pairwise_map.mpr hs
      · rw [← h1]
        exact List.map_take _ _ _

/-- C8: missing either date query parameter makes both admin reports reply
with the 400 bad-request failure, whatever the database and limit — the
outcome is independent of the stored data, no query being consulted. -/
theorem reports_missing_params_bad_request (db : DB)
    (startQ endQ limitQ : Option Nat) (h : startQ = none ∨ endQ = none) :
    bestProfession db startQ endQ =
      ProfessionResult.badRequest "Missing start or end date query parameters" ∧
    bestClients db startQ endQ limitQ =
      ClientsResult.badRequest "Missing start or end date query parameters" := by
  rcases h with rfl | rfl
  · cases endQ <;> exact ⟨rfl, rfl⟩
  · cases startQ <;> exact ⟨rfl, rfl⟩

theorem contractsInRange_nil (db : DB) : contractsInRange db [] = [] := by
  simp [contractsInRange]

/-- C10: the two source variants of the best-profession report differ on a
range with no paid jobs — the complete variant replies 404 not-found, the
earlier variant crashes indexing an undefined entry — while on any range
where both do produce a result they report the same top amount. -/
theorem bestProfession_variants_disagree_on_empty (db : DB) (s e : Nat) :
    (jobsInRange db s e = [] →
      bestProfession db (some s) (some e) =
        ProfessionResult.notFound "No job found for specified range" ∧
      bestProfessionV1 db (some s) (some e) = ProfessionResult.crash) ∧
    (∀ p a q b, bestProfession db (some s) (some e) = ProfessionResult.ok p a →
      bestProfessionV1 db (some s) (some e) = ProfessionResult.ok q b →
        b = a) := by
  constructor
  · intro hje
    constructor
    · simp [bestProfession, hje]
    · simp only [bestProfessionV1, hje, contractsInRange_nil]
      rfl
  · intro p a q b h1 h2
    have m1 := bp_ok_mem_max db s e p a h1
    have m2 := bpV1_ok_mem_max db s e q b h2
    exact le_antisymm (m1.2 (q, b) m2.1) (m2.2 (p, a) m1.1)

/-- Client X of the report examples. -/
def exClientX : Profile := ⟨4, "client", "Mr X", "", 500⟩

/-- Client Y of the report examples. -/
def exClientY : Profile := ⟨5, "client", "Ms Y", "", 500⟩

/-- Contractor with profession ProfA. -/
def exContractorA : Profile := ⟨7, "contractor", "Alice A", "ProfA", 0⟩

/-- Contractor with profession ProfB. -/
def exContractorB : Profile := ⟨8, "contractor", "Bob B", "ProfB", 0⟩

/-- Contract of client X with contractor A. -/
def exContractX : Contract := ⟨20, 4, 7, "in_progress"⟩

/-- Contract of client Y with contractor B. -/
def exContractY : Contract := ⟨21, 5, 8, "in_progress"⟩

/-- Database for the best-clients example: X paid 300 in total, Y paid 200. -/
def exDb2 : DB := ⟨[exClientX, exClientY, exContractorA, exContractorB],
  [exContractX, exContractY],
  [⟨200, 20, 100, true, some 5⟩, ⟨201, 20, 200, true, some 6⟩,
    ⟨202, 21, 200, true, some 6⟩]⟩

/-- Database for the best-profession example: profession ProfA sums 100 and
ProfB sums 250 over the range. -/
def exDb3 : DB := ⟨[exClientX, exClientY, exContractorA, exContractorB],
  [exContractX, exContractY],
  [⟨210, 20, 100, true, some 4⟩, ⟨211, 21, 250, true, some 5⟩]⟩

/-- Witness for C5: on the concrete range, professions sum to 100 (ProfA) and
250 (ProfB) and the report returns ProfB with amount 250, the maximum. -/
theorem bestProfession_returns_top_witness :
    bestProfession exDb3 (some 0) (some 10) = ProfessionResult.ok "ProfB" 250 ∧
    professionSummaryOf exDb3 0 10 = [("ProfA", 100), ("ProfB", 250)] ∧
    (("ProfB", (250 : Int)) ∈ professionSummaryOf exDb3 0 10 ∧
      ∀ q ∈ professionSummaryOf exDb3 0 10, q.2 ≤ (250 : Int)) :=
  ⟨by decide, by decide,
    bestProfession_returns_top exDb3 0 10 "ProfB" 250 (by decide)⟩

/-- Witness for C6: with limit 1 over a range where X paid 300 and Y paid
200, the report returns exactly one entry, X with paid 300. -/
theorem bestClients_top_limit_witness :
    bestClients exDb2 (some 0) (some 10) (some 1) =
      ClientsResult.ok [⟨4, "Mr X", 300⟩] ∧
    ∃ sortedAll : List ClientEntry,
      sortedAll.Perm ((clientsSummaryOf exDb2 0 10).map (fun x => x.2)) ∧
      sortedAll.Sorted entryPaidDesc ∧
      [(⟨4, "Mr X", 300⟩ : ClientEntry)] =
        sortedAll.take ((some 1 : Option Nat).getD 2) :=
  ⟨by decide, bestClients_top_limit exDb2 0 10 (some 1) [⟨4, "Mr X", 300⟩]
    (by decide)⟩

/-- Witness for C8: with the start parameter missing the reports reply 400 on
the concrete database. -/
theorem reports_missing_params_bad_request_witness :
    ((none : Option Nat) = none ∨ (some 5 : Option Nat) = none) ∧
    bestProfession exDb none (some 5) =
      ProfessionResult.badRequest "Missing start or end date query parameters" ∧
    bestClients exDb none (some 5) (some 1) =
      ClientsResult.badRequest "Missing start or end date query parameters" :=
  ⟨Or.inl rfl,
    reports_missing_params_bad_request exDb none (some 5) (some 1) (Or.inl rfl)⟩

/-- Witness for C10: on a concrete empty range the complete variant replies
404 while the earlier variant crashes. -/
theorem bestProfession_variants_disagree_on_empty_witness :
    jobsInRange exDb 100 200 = [] ∧
    (bestProfession exDb (some 100) (some 200) =
        ProfessionResult.notFound "No job found for specified range" ∧
      bestProfessionV1 exDb (some 100) (some 200) = ProfessionResult.crash) :=
  ⟨by decide,
    (bestProfession_variants_disagree_on_empty exDb 100 200).1 (by decide)⟩
